import Mathlib

/-!
Verification of the TweetAPI media-ingestion pipeline.

This file gives a shallow embedding, in Lean 4, of the asynchronous
media-ingestion pipeline of the TweetAPI repository:

* `src/api/controllers/controllers.py` — `MediaController` (filename
  sanitization, record creation, path assignment, submission, shutdown);
* `src/api/utils/threads.py` — `BaseThread`, `ReadThread`, `WriteThread`
  (the worker loops over the two bounded queues);
* `src/api/models/schemas.py` — the `Media` row (`filename_max_length = 20`).

Python strings are modelled as Lean `String` (both are sequences of unicode
code points, both `len`/`length` count code points).  Byte payloads are
`List Nat`.  The worker threads' loops are modelled as a function recursing
over the finite list of items the queue will deliver, with the shared stop
event modelled as a function `stopAt : Nat → Bool` giving the value the loop
condition observes at iteration `i` (the event is set-once in the source, so
a run with a constant `stopAt` is an admissible execution).  `queue.get`
blocking on an empty queue is the `blocked` loop exit; an exception escaping
a worker's `func`/`async_func` (which in the source kills the thread) is the
`crashed` exit.  The filesystem seen by the write worker is an association
list from paths to contents whose most recent write shadows older ones.
-/

namespace TweetAPI

/-- Python `s[:n]` (used as `text[:cut_index]` in `MediaController.__cut_off`). -/
def pyTake (s : String) (n : Nat) : String :=
  ⟨s.data.take n⟩

/-- Python `s[-n:]` for `n ≥ 1` (used as `text[-cut_index:]` in
`MediaController.__cut_off`; the source only calls it with `n = 9`). -/
def pyTakeRight (s : String) (n : Nat) : String :=
  ⟨s.data.drop (s.data.length - n)⟩

/-- Python `s * n` on strings (used as `join_symbol * offset * 2`). -/
def pyRepeat (s : String) (n : Nat) : String :=
  ⟨(List.replicate n s.data).flatten⟩

/-- Python `re.sub(r"[/\\]", "", name)` in `MediaController.__refactor_filename`:
remove every `/` and `\` character. -/
def removeSeparators (s : String) : String :=
  ⟨s.data.filter (fun c => !(c == '/' || c == '\\'))⟩

/-- Constant `Media.filename_max_length` from `src/api/models/schemas.py`. -/
def filename_max_length : Nat := 20

/-- Function `MediaController.__cut_off(text, max_length, join_symbol)`:
`offset = 1`, `cut_index = max_length // 2 - offset`, result is
`text[:cut_index] + join_symbol * offset * 2 + text[-cut_index:]`.
(The source only calls it with `max_length = 20`, so `cut_index = 9 ≥ 1`
and the Python negative-index slice agrees with `pyTakeRight`.) -/
def cutOff (text : String) (maxLength : Nat) (joinSymbol : String) : String :=
  let offset := 1
  let cutIndex := maxLength / 2 - offset
  let firstHalf := pyTake text cutIndex
  let middle := pyRepeat (pyRepeat joinSymbol offset) 2
  let secondHalf := pyTakeRight text cutIndex
  firstHalf ++ middle ++ secondHalf

/-- Function `MediaController.__refactor_filename(name)`.  The fresh value of
`uuid4().hex` that the source would generate is passed in as `uuidHex`
(nondeterministic input of the embedding; `uuid4().hex` is always a
32-character lower-case hexadecimal string, captured by `isUuidHex`).
Note the source tests `if not name` BEFORE stripping separators. -/
def refactorFilename (uuidHex : String) (name : String) : String :=
  if name = "" then
    uuidHex
  else
    let name := removeSeparators name
    if name.length > filename_max_length then
      cutOff name filename_max_length "_"
    else
      name

/-- Characterization of the possible outputs of Python `uuid.uuid4().hex`:
a 32-character string of lower-case hexadecimal digits. -/
def isUuidHex (s : String) : Bool :=
  s.length == 32 && s.data.all (fun c => c.isDigit || ('a' ≤ c && c ≤ 'f'))

/-! ## Data model: `Media` rows, upload handles, queue items -/

/-- Byte payloads (`bytes` in Python). -/
abbrev ByteSeq := List Nat

/-- The `Media` row of `src/api/models/schemas.py`: `id` (assigned by the
database), `name` (sanitized filename), `file` (nullable destination path,
`none` until `MediaController.__update_media_items` assigns it). -/
structure Media where
  id : Nat
  name : String
  file : Option String
deriving DecidableEq, Repr

/-- A validated FastAPI `UploadFile` as the pipeline sees it: its original
`filename`, whether `UploadFile.validate` accepts it, and the outcome of
`await file.read()` — either the payload or the exception it raises. -/
structure UploadFile where
  filename : String
  valid : Bool
  content : Except String ByteSeq
deriving Repr

/-- A read-queue item: `None` (the sentinel pushed by `BaseThread.stop`) or a
`ReadJob` — the `(media_items, files)` pair pushed by
`MediaController._save_media`, lists aligned by position. -/
abbrev ReadItem := Option (List Media × List UploadFile)

/-- A write-queue item: `None` (sentinel) or a `WriteJob` — one
`(media, file_bytes)` pair pushed by `ReadThread.async_func`. -/
abbrev WriteItem := Option (Media × ByteSeq)

/-- The filesystem seen by `WriteThread`: an association list of
`(path, contents)`; the most recent write shadows earlier entries. -/
abbrev FS := List (String × ByteSeq)

/-- Python `media_path.open(mode="wb")` followed by `write_file.write(file)`:
(re)create the file at `path` with exactly `content`. -/
def fsWrite (fs : FS) (path : String) (content : ByteSeq) : FS :=
  (path, content) :: fs

/-- Read back the current contents of `path` (most recent write wins). -/
def fsRead (fs : FS) (path : String) : Option ByteSeq :=
  (fs.find? (fun e => e.1 == path)).map (fun e => e.2)

/-! ## Worker loops (`src/api/utils/threads.py`) -/

/-- How a worker's `while not self.stop_event.is_set(): ...` loop ends:
`stopped` — the loop condition observed the stop event set;
`blocked` — the queue ran out of items, `queue.get()` blocks forever;
`crashed e` — an exception escaped `func`/`async_func`, killing the thread. -/
inductive LoopExit where
  | stopped : LoopExit
  | blocked : LoopExit
  | crashed : String → LoopExit
deriving DecidableEq, Repr

/-- Python `asyncio.gather(*tasks)` over the read results of the job's files: if
every read resolves, the list of payloads in input order; if any read raises,
the exception propagates out of the wait-for-all. -/
def gatherReads : List (Except String ByteSeq) → Except String (List ByteSeq)
  | [] => .ok []
  | r :: rs =>
    match r with
    | .error e => .error e
    | .ok b =>
      match gatherReads rs with
      | .error e => .error e
      | .ok bs => .ok (b :: bs)

/-- One non-sentinel iteration of `ReadThread.async_func`: gather all reads,
then (only if all succeeded) the `(media, file)` pairs pushed onto the write
queue, via `zip(medias, files)`. -/
def readJobStep (medias : List Media) (files : List UploadFile) :
    Except String (List (Media × ByteSeq)) :=
  match gatherReads (files.map (fun f => f.content)) with
  | .error e => .error e
  | .ok bs => .ok (medias.zip bs)

/-- The read worker's loop (`BaseThread.__run_async` driving
`ReadThread.async_func`): at iteration `i` the loop condition observes
`stopAt i`; if unset, pull the next item.  A sentinel just completes the
iteration (`task_done(); return`).  A real job gathers all its reads and
appends one write job per `(media, bytes)` pair to `out` (the write queue),
or crashes the worker if a read raised.  Returns the write-queue items
produced and how the loop ended. -/
def runReadLoop (stopAt : Nat → Bool) :
    Nat → List ReadItem → List (Media × ByteSeq) →
      List (Media × ByteSeq) × LoopExit
  | i, [], out => if stopAt i then (out, .stopped) else (out, .blocked)
  | i, item :: rest, out =>
    if stopAt i then (out, .stopped)
    else
      match item with
      | none => runReadLoop stopAt (i + 1) rest out
      | some (medias, files) =>
        match readJobStep medias files with
        | .error e => (out, .crashed e)
        | .ok ws => runReadLoop stopAt (i + 1) rest (out ++ ws)

/-- The write worker's loop (`BaseThread.__run_sync` driving
`WriteThread.func`): a sentinel completes the iteration; a real
`(media, file)` job opens `Path(media.file)` for binary write and writes the
payload (a `None` path would raise, crashing the worker). -/
def runWriteLoop (stopAt : Nat → Bool) :
    Nat → List WriteItem → FS → FS × LoopExit
  | i, [], fs => if stopAt i then (fs, .stopped) else (fs, .blocked)
  | i, item :: rest, fs =>
    if stopAt i then (fs, .stopped)
    else
      match item with
      | none => runWriteLoop stopAt (i + 1) rest fs
      | some (media, content) =>
        match media.file with
        | none => (fs, .crashed "TypeError")
        | some path => runWriteLoop stopAt (i + 1) rest (fsWrite fs path content)

/-! ## The orchestrator (`MediaController` in
`src/api/controllers/controllers.py`) -/

/-- An `APIException` as the HTTP caller sees it: detail message and HTTP
status code (`exceptions.py`: `ValidationError` carries 422,
`_save_media`'s rejection carries 500). -/
structure APIErr where
  msg : String
  statusCode : Nat
deriving DecidableEq, Repr

/-- The shared state `MediaController` acts on: the class-level stop event
and the two class-level queues (modelled as the lists of items delivered in
FIFO order), plus the database's media table (`rows`) and its autoincrement
counter (`nextId`). -/
structure PipeState where
  stopFlag : Bool
  readQ : List ReadItem
  writeQ : List WriteItem
  nextId : Nat
  rows : List Media
deriving Repr

/-- The loop body of `MediaController.__create_media_items` before
`add_all`: validate each file in order (`UploadFile.validate`; a failure
raises `ValidationError("File error")` and aborts the whole call), and
compute each record's sanitized name via `__refactor_filename`.  `uuids k`
is the fresh `uuid4().hex` the source would draw for the `k`-th file. -/
def mkNames (uuids : Nat → String) : Nat → List UploadFile →
    Except APIErr (List String)
  | _, [] => .ok []
  | k, f :: fs =>
    if f.valid then
      match mkNames uuids (k + 1) fs with
      | .error e => .error e
      | .ok names => .ok (refactorFilename (uuids k) f.filename :: names)
    else
      .error ⟨"File error", 422⟩

/-- Method `media_manager.add_all`: insert the new rows, each receiving the next
autoincrement id, `file` still null. -/
def addAll (nextId : Nat) (names : List String) : List Media :=
  names.enum.map (fun p => ⟨nextId + p.1, p.2, none⟩)

/-- The destination path `MediaController.__update_media_items` assigns:
`settings.MEDIA_DIR / str(media.id) / media.name` (the media-root directory
`root` is an absolute path, so `absolute().resolve()` leaves it as written). -/
def mediaPath (root : String) (id : Nat) (name : String) : String :=
  root ++ "/" ++ toString id ++ "/" ++ name

/-- Method `MediaController.__update_media_items`: assign each record its
destination path (its directory `<root>/<id>/` having been created first). -/
def updateMediaItems (root : String) (medias : List Media) : List Media :=
  medias.map (fun m => ⟨m.id, m.name, some (mediaPath root m.id m.name)⟩)

/-- Method `MediaController._save_media(files)`: if the stop event is set, raise
`APIException("Queue is closed", 500)` and change nothing; otherwise create
the records (names sanitized, ids assigned), assign and persist their
destination paths, push the single `(media_items, files)` job onto the read
queue, and return the records. -/
def saveMediaInner (uuids : Nat → String) (root : String)
    (files : List UploadFile) (s : PipeState) :
    PipeState × Except APIErr (List Media) :=
  if s.stopFlag then
    (s, .error ⟨"Queue is closed", 500⟩)
  else
    match mkNames uuids 0 files with
    | .error e => (s, .error e)
    | .ok names =>
      let created := addAll s.nextId names
      let medias := updateMediaItems root created
      ({ s with
          nextId := s.nextId + names.length
          rows := s.rows ++ medias
          readQ := s.readQ ++ [some (medias, files)] },
        .ok medias)

/-- Method `MediaController.save_media(form)`: extract the form's `file` entries;
an empty list raises `ValidationError` before anything else happens. -/
def saveMedia (uuids : Nat → String) (root : String)
    (files : List UploadFile) (s : PipeState) :
    PipeState × Except APIErr (List Media) :=
  if files.isEmpty then
    (s, .error ⟨"Empty field: `file`", 422⟩)
  else
    saveMediaInner uuids root files s

/-! ## Lifecycle (`MediaController.stop_threads`, `BaseThread.stop`) -/

/-- The two worker threads, in the order of `MediaController.__THREADS`. -/
inductive WorkerId where
  | readWorker : WorkerId
  | writeWorker : WorkerId
deriving DecidableEq, Repr

/-- The externally visible actions `stop_threads` performs, in order. -/
inductive StopEvent where
  | setFlag : StopEvent
  | putSentinel : WorkerId → StopEvent
  | joinWorker : WorkerId → Nat → StopEvent
deriving DecidableEq, Repr

/-- Method `BaseThread.stop(timeout=10)`: push one sentinel into the worker's own
queue, then `join(timeout)` — a bounded wait that returns whether or not the
thread has exited. -/
def threadStop (w : WorkerId) (timeout : Nat) : List StopEvent :=
  [.putSentinel w, .joinWorker w timeout]

/-- Method `MediaController.stop_threads`: set the stop event, then call
`stop()` (with its default timeout of 10) on the read thread and then on the
write thread.  Returns the updated shared state and the action trace. -/
def stopThreads (s : PipeState) : PipeState × List StopEvent :=
  ({ s with
      stopFlag := true
      readQ := s.readQ ++ [none]
      writeQ := s.writeQ ++ [none] },
    .setFlag :: (threadStop .readWorker 10 ++ threadStop .writeWorker 10))

/-! ## Lemmas about the filename sanitizer -/

/-- Predicate: the string contains no path-separator character. -/
def sepFree (s : String) : Bool :=
  s.data.all (fun c => !(c == '/' || c == '\\'))

theorem pyTake_length (s : String) (n : Nat) :
    (pyTake s n).length = min n s.length :=
  List.length_take ..

theorem pyTakeRight_length (s : String) (n : Nat) (h : n ≤ s.length) :
    (pyTakeRight s n).length = n := by
  have h' : n ≤ s.data.length := h
  show (s.data.drop (s.data.length - n)).length = n
  rw [List.length_drop]
  omega

theorem middle_length : (pyRepeat (pyRepeat "_" 1) 2).length = 2 := rfl

theorem cutOff_length (text : String) (h : 9 ≤ text.length) :
    (cutOff text 20 "_").length = 20 := by
  show (pyTake text 9 ++ pyRepeat (pyRepeat "_" 1) 2 ++ pyTakeRight text 9).length = 20
  rw [String.length_append, String.length_append, pyTake_length, middle_length,
    pyTakeRight_length text 9 (by omega)]
  omega

theorem removeSeparators_length_le (s : String) :
    (removeSeparators s).length ≤ s.length :=
  List.length_filter_le _ s.data

theorem removeSeparators_eq_self (s : String) (h : sepFree s = true) :
    removeSeparators s = s := by
  cases s with
  | mk data =>
    show String.mk (data.filter _) = String.mk data
    congr 1
    exact List.filter_eq_self.mpr (List.all_eq_true.mp h)

theorem removeSeparators_sepFree (s : String) :
    sepFree (removeSeparators s) = true := by
  simp only [sepFree, removeSeparators, List.all_eq_true]
  intro c hc
  exact (List.mem_filter.mp hc).2

theorem uuidHex_sepFree (u : String) (h : isUuidHex u = true) :
    sepFree u = true := by
  simp only [isUuidHex, Bool.and_eq_true, List.all_eq_true] at h
  obtain ⟨-, hall⟩ := h
  simp only [sepFree, List.all_eq_true]
  intro c hc
  have hc' := hall c hc
  by_cases h1 : c = '/'
  · subst h1; simp at hc'
  by_cases h2 : c = '\\'
  · subst h2; simp at hc'
  · simp [h1, h2]

theorem cutOff_sepFree (t : String) (h : sepFree t = true) :
    sepFree (cutOff t 20 "_") = true := by
  simp only [sepFree, List.all_eq_true] at h ⊢
  intro c hc
  simp only [cutOff, pyTake, pyTakeRight, String.data_append] at hc
  rcases List.mem_append.mp hc with hc1 | hc2
  · rcases List.mem_append.mp hc1 with hc3 | hc4
    · exact h c (List.take_subset _ _ hc3)
    · have : c = '_' := by
        simpa [pyRepeat, List.mem_replicate] using hc4
      subst this; decide
  · exact h c (List.drop_subset _ _ hc2)

theorem uuidHex_length (u : String) (h : isUuidHex u = true) :
    u.length = 32 := by
  simp only [isUuidHex, Bool.and_eq_true, beq_iff_eq] at h
  exact h.1

/-! ## Lemmas about the worker loops -/

theorem gatherReads_ok (bs : List ByteSeq) :
    gatherReads (bs.map Except.ok) = .ok bs := by
  induction bs with
  | nil => rfl
  | cons b rest ih => simp [gatherReads, ih]

theorem gatherReads_error (rs : List (Except String ByteSeq)) (e : String)
    (he : Except.error e ∈ rs) : ∃ e2, gatherReads rs = .error e2 := by
  induction rs with
  | nil => cases he
  | cons r rest ih =>
    rcases List.mem_cons.mp he with h1 | h2
    · exact ⟨e, by rw [← h1]; rfl⟩
    · obtain ⟨e2, h⟩ := ih h2
      cases r with
      | error e3 => exact ⟨e3, rfl⟩
      | ok b => exact ⟨e2, by simp [gatherReads, h]⟩

theorem runReadLoop_fst_nil (stopAt : Nat → Bool) (i : Nat)
    (out : List (Media × ByteSeq)) :
    (runReadLoop stopAt i [] out).1 = out := by
  by_cases h : stopAt i <;> simp [runReadLoop, h]

theorem runReadLoop_cons_job (stopAt : Nat → Bool) (i : Nat)
    (medias : List Media) (files : List UploadFile) (rest : List ReadItem)
    (out ws : List (Media × ByteSeq))
    (hstop : stopAt i = false) (hstep : readJobStep medias files = .ok ws) :
    runReadLoop stopAt i (some (medias, files) :: rest) out =
      runReadLoop stopAt (i + 1) rest (out ++ ws) := by
  simp [runReadLoop, hstop, hstep]

/-! ## Claim C1 -/

/-- C1: for every batch of `N` file-handles submitted together as one
`ReadJob` (no read failure), the read worker enqueues exactly `N` write jobs
onto the write queue — `medias.zip bytes`, pairing the `k`-th record with
the `k`-th resolved payload in input order — and only after every read in
the job has completed: the whole batch is appended in one iteration, after
`gather` resolves all reads. -/
theorem read_worker_batch_forwarding (stopAt : Nat → Bool) (i : Nat)
    (medias : List Media) (files : List UploadFile) (bytes : List ByteSeq)
    (out : List (Media × ByteSeq))
    (hstop : stopAt i = false)
    (hread : files.map (fun f => f.content) = bytes.map Except.ok)
    (hlen : medias.length = files.length) :
    (runReadLoop stopAt i [some (medias, files)] out).1 = out ++ medias.zip bytes ∧
    (medias.zip bytes).length = medias.length ∧
    ∀ (k : Nat) (hk : k < (medias.zip bytes).length) (hm : k < medias.length)
      (hb : k < bytes.length),
      (medias.zip bytes).get ⟨k, hk⟩ = (medias.get ⟨k, hm⟩, bytes.get ⟨k, hb⟩) := by
  have hblen : files.length = bytes.length := by
    have := congrArg List.length hread
    simpa using this
  have hgather : gatherReads (files.map fun f => f.content) = .ok bytes := by
    rw [hread]; exact gatherReads_ok bytes
  have hstep : readJobStep medias files = .ok (medias.zip bytes) := by
    simp [readJobStep, hgather]
  refine ⟨?_, ?_, ?_⟩
  · rw [runReadLoop_cons_job stopAt i medias files [] out _ hstop hstep]
    exact runReadLoop_fst_nil ..
  · rw [List.length_zip]
    omega
  · intro k hk hm hb
    simp [List.get_eq_getElem, List.getElem_zip]

/-- Witness for C1: a concrete two-file batch, both reads resolving, is
forwarded as exactly its two `(record, payload)` pairs, in order. -/
theorem read_worker_batch_forwarding_witness :
    (runReadLoop (fun _ => false) 0
        [some (([⟨1, "a", none⟩, ⟨2, "b", none⟩] : List Media),
          ([⟨"a", true, Except.ok [7]⟩, ⟨"b", true, Except.ok [8, 9]⟩] : List UploadFile))]
        []).1 =
      [] ++ ([⟨1, "a", none⟩, ⟨2, "b", none⟩] : List Media).zip
        ([[7], [8, 9]] : List ByteSeq) ∧
    (([⟨1, "a", none⟩, ⟨2, "b", none⟩] : List Media).zip
        ([[7], [8, 9]] : List ByteSeq)).length =
      ([⟨1, "a", none⟩, ⟨2, "b", none⟩] : List Media).length ∧
    ∀ (k : Nat)
      (hk : k < (([⟨1, "a", none⟩, ⟨2, "b", none⟩] : List Media).zip
        ([[7], [8, 9]] : List ByteSeq)).length)
      (hm : k < ([⟨1, "a", none⟩, ⟨2, "b", none⟩] : List Media).length)
      (hb : k < ([[7], [8, 9]] : List ByteSeq).length),
      (([⟨1, "a", none⟩, ⟨2, "b", none⟩] : List Media).zip
        ([[7], [8, 9]] : List ByteSeq)).get ⟨k, hk⟩ =
        (([⟨1, "a", none⟩, ⟨2, "b", none⟩] : List Media).get ⟨k, hm⟩,
          ([[7], [8, 9]] : List ByteSeq).get ⟨k, hb⟩) :=
  read_worker_batch_forwarding (fun _ => false) 0
    [⟨1, "a", none⟩, ⟨2, "b", none⟩]
    [⟨"a", true, Except.ok [7]⟩, ⟨"b", true, Except.ok [8, 9]⟩]
    [[7], [8, 9]] [] rfl rfl rfl

/-! ## Claim C7 -/

/-- C7: if the read of any single file-handle in a `ReadJob` raises, the
exception propagates out of the wait-for-all (`gather`): the read worker
enqueues no write job from that job — not even for the handles that read
successfully (`out` is returned unchanged) — and the unhandled exception
terminates the worker's loop (the `crashed` exit; the remaining queue items
`rest` are never processed). -/
theorem read_worker_failure_aborts_job (stopAt : Nat → Bool) (i : Nat)
    (medias : List Media) (files : List UploadFile) (rest : List ReadItem)
    (out : List (Media × ByteSeq)) (e : String)
    (hstop : stopAt i = false)
    (hfail : Except.error e ∈ files.map (fun f => f.content)) :
    ∃ e2, runReadLoop stopAt i (some (medias, files) :: rest) out =
      (out, .crashed e2) := by
  obtain ⟨e2, hg⟩ := gatherReads_error _ e hfail
  refine ⟨e2, ?_⟩
  have hstep : readJobStep medias files = .error e2 := by
    simp [readJobStep, hg]
  simp [runReadLoop, hstop, hstep]

/-- Witness for C7: a batch whose second read raises is dropped whole — the
first file's successful bytes are not forwarded and the worker crashes,
leaving a further queued job unprocessed. -/
theorem read_worker_failure_aborts_job_witness :
    ∃ e2, runReadLoop (fun _ => false) 0
        (some (([⟨1, "a", none⟩, ⟨2, "b", none⟩] : List Media),
          ([⟨"a", true, Except.ok [7]⟩, ⟨"b", true, Except.error "stream broken"⟩] :
            List UploadFile)) :: [none]) [] =
      ([], .crashed e2) :=
  read_worker_failure_aborts_job (fun _ => false) 0
    [⟨1, "a", none⟩, ⟨2, "b", none⟩]
    [⟨"a", true, Except.ok [7]⟩, ⟨"b", true, Except.error "stream broken"⟩]
    [none] [] "stream broken" rfl (by simp)

/-! ## Claim C6 -/

/-- C6 (counterexample): with the stop flag unset, the read worker that
dequeues the sentinel does NOT exit its loop — it goes on to process a
subsequent job, enqueuing its write job.  This falsifies "dequeuing the
sentinel causes that worker to exit its processing loop … regardless of the
state of the stop flag". -/
theorem sentinel_exit_counterexample :
    (runReadLoop (fun _ => false) 0
        (none :: [some (([⟨1, "a", none⟩] : List Media),
          ([⟨"a", true, Except.ok [7]⟩] : List UploadFile))]) []).1 =
      [(⟨1, "a", none⟩, [7])] := by
  rfl

/-- C6 (amended): dequeuing the sentinel causes the worker (read or write)
to complete that iteration with no further action — nothing enqueued to the
write queue, no filesystem write — and the worker then exits its loop
precisely when the stop flag is observed set at the next loop-condition
check; with the flag still unset it continues with subsequent items. -/
theorem sentinel_no_action (stopAt : Nat → Bool) (i : Nat)
    (rest : List ReadItem) (wrest : List WriteItem)
    (out : List (Media × ByteSeq)) (fs : FS)
    (hstop : stopAt i = false) :
    runReadLoop stopAt i (none :: rest) out = runReadLoop stopAt (i + 1) rest out ∧
    runWriteLoop stopAt i (none :: wrest) fs = runWriteLoop stopAt (i + 1) wrest fs ∧
    (stopAt (i + 1) = true →
      runReadLoop stopAt i (none :: rest) out = (out, .stopped) ∧
      runWriteLoop stopAt i (none :: wrest) fs = (fs, .stopped)) := by
  refine ⟨by simp [runReadLoop, hstop], by simp [runWriteLoop, hstop], fun h2 => ⟨?_, ?_⟩⟩
  · cases rest with
    | nil => simp [runReadLoop, hstop, h2]
    | cons a l => simp [runReadLoop, hstop, h2]
  · cases wrest with
    | nil => simp [runWriteLoop, hstop, h2]
    | cons a l => simp [runWriteLoop, hstop, h2]

/-- Witness for C6 (amended): concrete queues holding a sentinel and then a
real job, with the stop flag set right after the sentinel's iteration: both
workers exit with no action taken. -/
theorem sentinel_no_action_witness :
    runReadLoop (fun j => decide (1 ≤ j)) 0
        (none :: [some (([] : List Media), ([] : List UploadFile))]) [] =
      runReadLoop (fun j => decide (1 ≤ j)) 1
        [some (([] : List Media), ([] : List UploadFile))] [] ∧
    runWriteLoop (fun j => decide (1 ≤ j)) 0 (none :: [some (⟨1, "a", none⟩, [7])]) [] =
      runWriteLoop (fun j => decide (1 ≤ j)) 1 [some (⟨1, "a", none⟩, [7])] [] ∧
    (decide (1 ≤ 1) = true →
      runReadLoop (fun j => decide (1 ≤ j)) 0
          (none :: [some (([] : List Media), ([] : List UploadFile))]) [] =
        ([], .stopped) ∧
      runWriteLoop (fun j => decide (1 ≤ j)) 0
          (none :: [some (⟨1, "a", none⟩, [7])]) [] =
        ([], .stopped)) :=
  sentinel_no_action (fun j => decide (1 ≤ j)) 0
    [some (([] : List Media), ([] : List UploadFile))]
    [some (⟨1, "a", none⟩, [7])] [] [] rfl

/-! ## Claims C4, C5, C9: the filename sanitizer -/

theorem refactorFilename_of_ne (u name : String) (hne : name ≠ "") :
    refactorFilename u name =
      if (removeSeparators name).length > filename_max_length then
        cutOff (removeSeparators name) filename_max_length "_"
      else removeSeparators name := by
  unfold refactorFilename
  rw [if_neg hne]

/-- C4 (counterexample): the claim's universal length bound fails on the
empty filename: `__refactor_filename` substitutes `uuid4().hex`, a
32-character identifier, so the sanitized name has length 32 > 20. -/
theorem sanitized_length_counterexample :
    isUuidHex "00112233445566778899aabbccddeeff" = true ∧
    ¬ (refactorFilename "00112233445566778899aabbccddeeff" "").length ≤ 20 := by
  decide

/-- C4 (amended): for every NON-EMPTY input filename the sanitized name has
length at most 20; in particular a 40-character separator-free name becomes
its first 9 characters joined to its last 9 characters by the fixed
separator `__`, total length exactly 20.  (The empty filename instead
receives the 32-character random identifier — see the counterexample.) -/
theorem sanitized_length_bound (u name : String) (hne : name ≠ "") :
    (refactorFilename u name).length ≤ 20 ∧
    (name.length = 40 → sepFree name = true →
      refactorFilename u name = pyTake name 9 ++ "__" ++ pyTakeRight name 9 ∧
      (refactorFilename u name).length = 20) := by
  constructor
  · rw [refactorFilename_of_ne u name hne]
    by_cases h2 : (removeSeparators name).length > filename_max_length
    · rw [if_pos h2]
      have h20 : (removeSeparators name).length > 20 := h2
      exact le_of_eq (cutOff_length _ (by omega))
    · rw [if_neg h2]
      have h20 : ¬ (removeSeparators name).length > 20 := h2
      omega
  · intro h40 hsep
    have hrm : removeSeparators name = name := removeSeparators_eq_self name hsep
    have hcut : refactorFilename u name = cutOff name filename_max_length "_" := by
      rw [refactorFilename_of_ne u name hne, hrm, if_pos (by rw [h40]; decide)]
    constructor
    · rw [hcut]; rfl
    · rw [hcut]
      exact cutOff_length name (by omega)

/-- Witness for C4 (amended) at a concrete 40-character filename: the
sanitized name is `012345678__123456789`, of length 20. -/
theorem sanitized_length_bound_witness :
    (refactorFilename "00112233445566778899aabbccddeeff"
      "0123456789012345678901234567890123456789").length ≤ 20 ∧
    refactorFilename "00112233445566778899aabbccddeeff"
        "0123456789012345678901234567890123456789" =
      pyTake "0123456789012345678901234567890123456789" 9 ++ "__" ++
        pyTakeRight "0123456789012345678901234567890123456789" 9 ∧
    (refactorFilename "00112233445566778899aabbccddeeff"
      "0123456789012345678901234567890123456789").length = 20 :=
  ⟨(sanitized_length_bound "00112233445566778899aabbccddeeff"
      "0123456789012345678901234567890123456789" (by decide)).1,
    (sanitized_length_bound "00112233445566778899aabbccddeeff"
      "0123456789012345678901234567890123456789" (by decide)).2
      (by decide) (by decide)⟩

/-- C5 (counterexample): a filename consisting only of a path separator is
NOT replaced by a random identifier — `__refactor_filename` tests emptiness
before stripping separators, so `"/"` is stripped to the empty string and
the empty string is returned as the name. -/
theorem empty_after_strip_counterexample :
    isUuidHex "00112233445566778899aabbccddeeff" = true ∧
    refactorFilename "00112233445566778899aabbccddeeff" "/" = "" := by
  decide

/-- C5 (amended): the freshly generated random identifier (non-empty, 32
characters) is substituted only when the input filename is itself empty;
a non-empty filename that becomes empty once path separators are stripped
is returned as the empty string. -/
theorem random_identifier_only_for_empty (u : String) (hu : isUuidHex u = true) :
    refactorFilename u "" = u ∧
    refactorFilename u "" ≠ "" ∧
    (∀ name, name ≠ "" → removeSeparators name = "" →
      refactorFilename u name = "") := by
  refine ⟨rfl, ?_, ?_⟩
  · intro h
    have h32 := uuidHex_length u hu
    have hu0 : u = "" := h
    rw [hu0] at h32
    exact absurd h32 (by decide)
  · intro name hne hrm
    rw [refactorFilename_of_ne u name hne, hrm]
    decide

/-- Witness for C5 (amended) at a concrete 32-character identifier. -/
theorem random_identifier_only_for_empty_witness :
    refactorFilename "00112233445566778899aabbccddeeff" "" =
      "00112233445566778899aabbccddeeff" ∧
    refactorFilename "00112233445566778899aabbccddeeff" "" ≠ "" ∧
    (∀ name, name ≠ "" → removeSeparators name = "" →
      refactorFilename "00112233445566778899aabbccddeeff" name = "") :=
  random_identifier_only_for_empty "00112233445566778899aabbccddeeff" (by decide)

/-- C9: for every input filename, the sanitized name contains no path
separator: a non-empty name has its `/` and `\` removed before any
truncation (and the truncation only adds `_`), and the random identifier
substituted for an empty name is hexadecimal, hence separator-free. -/
theorem sanitized_name_sepFree (u name : String) (hu : isUuidHex u = true) :
    sepFree (refactorFilename u name) = true := by
  by_cases h : name = ""
  · rw [h]
    exact uuidHex_sepFree u hu
  · rw [refactorFilename_of_ne u name h]
    by_cases h2 : (removeSeparators name).length > filename_max_length
    · rw [if_pos h2]
      exact cutOff_sepFree _ (removeSeparators_sepFree name)
    · rw [if_neg h2]
      exact removeSeparators_sepFree name

/-- Witness for C9: a concrete path-traversal-style filename is sanitized
to a separator-free name. -/
theorem sanitized_name_sepFree_witness :
    sepFree (refactorFilename "00112233445566778899aabbccddeeff"
      "..\\../secret/photo.png") = true :=
  sanitized_name_sepFree "00112233445566778899aabbccddeeff"
    "..\\../secret/photo.png" (by decide)

/-! ## Claim C2 -/

/-- C2: every submission attempted after the stop flag has been set is
rejected by `_save_media` with the server-side fatal error
`APIException("Queue is closed", 500)`; nothing is enqueued onto the read
queue and no `Media` rows are created — the whole shared state is returned
unchanged.  Under a set flag this rejection is the only possible outcome,
so the caller sees either record ids (flag unset) or this rejection. -/
theorem stopped_pipeline_rejects (uuids : Nat → String) (root : String)
    (files : List UploadFile) (s : PipeState) (hstop : s.stopFlag = true) :
    saveMediaInner uuids root files s = (s, .error ⟨"Queue is closed", 500⟩) ∧
    (saveMediaInner uuids root files s).1.readQ = s.readQ ∧
    (saveMediaInner uuids root files s).1.rows = s.rows := by
  have h : saveMediaInner uuids root files s = (s, .error ⟨"Queue is closed", 500⟩) := by
    unfold saveMediaInner
    rw [if_pos hstop]
  exact ⟨h, by rw [h], by rw [h]⟩

/-- Witness for C2: a concrete submission of one file into a stopped
pipeline is rejected with status 500 and changes nothing. -/
theorem stopped_pipeline_rejects_witness :
    saveMediaInner (fun _ => "00112233445566778899aabbccddeeff") "/media"
        [⟨"photo.png", true, Except.ok [1, 2, 3]⟩] ⟨true, [], [], 0, []⟩ =
      (⟨true, [], [], 0, []⟩, .error ⟨"Queue is closed", 500⟩) ∧
    (saveMediaInner (fun _ => "00112233445566778899aabbccddeeff") "/media"
        [⟨"photo.png", true, Except.ok [1, 2, 3]⟩]
        ⟨true, [], [], 0, []⟩).1.readQ = ([] : List ReadItem) ∧
    (saveMediaInner (fun _ => "00112233445566778899aabbccddeeff") "/media"
        [⟨"photo.png", true, Except.ok [1, 2, 3]⟩]
        ⟨true, [], [], 0, []⟩).1.rows = ([] : List Media) :=
  stopped_pipeline_rejects (fun _ => "00112233445566778899aabbccddeeff") "/media"
    [⟨"photo.png", true, Except.ok [1, 2, 3]⟩] ⟨true, [], [], 0, []⟩ rfl

/-! ## Claim C10 -/

/-- C10: submitting a form whose `file` field contains no entries raises
`ValidationError("Empty field: ...", 422)` before any record is created and
before anything is enqueued — the shared state is returned unchanged. -/
theorem empty_file_field_rejected (uuids : Nat → String) (root : String)
    (s : PipeState) :
    saveMedia uuids root [] s = (s, .error ⟨"Empty field: `file`", 422⟩) ∧
    (saveMedia uuids root [] s).1.readQ = s.readQ ∧
    (saveMedia uuids root [] s).1.rows = s.rows := by
  have h : saveMedia uuids root [] s = (s, .error ⟨"Empty field: `file`", 422⟩) := rfl
  exact ⟨h, by rw [h], by rw [h]⟩

/-! ## Claim C8 -/

/-- C8: `stop_threads` first sets the shared stop flag, then, for each
worker in turn, pushes exactly one sentinel into that worker's queue and
waits for it with the bounded timeout of 10 time-units (`join(10)` returns
whether or not the worker has exited — `stopThreads` is a total function of
the state).  And once the flag is set (it is never cleared), every
subsequent loop-condition check makes a worker exit immediately: with the
flag observed set, neither worker dequeues anything further from its
queue. -/
theorem stop_threads_protocol (s : PipeState) :
    (stopThreads s).2 =
      [.setFlag, .putSentinel .readWorker, .joinWorker .readWorker 10,
        .putSentinel .writeWorker, .joinWorker .writeWorker 10] ∧
    (stopThreads s).1.stopFlag = true ∧
    (stopThreads s).1.readQ = s.readQ ++ [none] ∧
    (stopThreads s).1.writeQ = s.writeQ ++ [none] ∧
    (∀ (i : Nat) (q : List ReadItem) (out : List (Media × ByteSeq)),
      runReadLoop (fun _ => true) i q out = (out, .stopped)) ∧
    (∀ (i : Nat) (q : List WriteItem) (fs : FS),
      runWriteLoop (fun _ => true) i q fs = (fs, .stopped)) := by
  refine ⟨rfl, rfl, rfl, rfl, ?_, ?_⟩
  · intro i q out
    cases q <;> simp [runReadLoop]
  · intro i q fs
    cases q <;> simp [runWriteLoop]

/-! ## Claim C3 -/

/-- C3: submitting a single file whose name is non-empty, separator-free
and within the 20-character limit creates a `Media` record bearing exactly
that name, whose destination path is `<media-root>/<record-id>/<name>`, and
enqueues the `(records, files)` job; the read worker resolves it to the
`(record, payload)` write job, and the write worker writes the full payload
to that destination path, after which reading the path back yields exactly
the uploaded bytes. -/
theorem single_file_round_trip (uuids : Nat → String) (root name : String)
    (content : ByteSeq) (s : PipeState)
    (hstop : s.stopFlag = false) (hne : name ≠ "")
    (hsep : sepFree name = true) (hlen : name.length ≤ 20) :
    saveMedia uuids root [⟨name, true, Except.ok content⟩] s =
      ({ s with
          nextId := s.nextId + 1
          rows := s.rows ++ [⟨s.nextId, name, some (mediaPath root s.nextId name)⟩]
          readQ := s.readQ ++
            [some ([⟨s.nextId, name, some (mediaPath root s.nextId name)⟩],
              [⟨name, true, Except.ok content⟩])] },
        .ok [⟨s.nextId, name, some (mediaPath root s.nextId name)⟩]) ∧
    (runReadLoop (fun _ => false) 0
        [some ([⟨s.nextId, name, some (mediaPath root s.nextId name)⟩],
          [⟨name, true, Except.ok content⟩])] []).1 =
      [(⟨s.nextId, name, some (mediaPath root s.nextId name)⟩, content)] ∧
    ∀ fs : FS,
      fsRead ((runWriteLoop (fun _ => false) 0
          [some (⟨s.nextId, name, some (mediaPath root s.nextId name)⟩, content)]
          fs).1)
        (mediaPath root s.nextId name) = some content := by
  have hrf : refactorFilename (uuids 0) name = name := by
    rw [refactorFilename_of_ne _ _ hne, removeSeparators_eq_self name hsep,
      if_neg (show ¬ name.length > filename_max_length by
        unfold filename_max_length; omega)]
  refine ⟨?_, ?_, ?_⟩
  · show saveMediaInner uuids root [⟨name, true, Except.ok content⟩] s = _
    simp [saveMediaInner, mkNames, addAll, updateMediaItems, hstop, hrf,
      mediaPath, List.enum, List.enumFrom]
  · simp [runReadLoop, readJobStep, gatherReads]
  · intro fs
    simp [runWriteLoop, fsWrite, fsRead]

/-- Witness for C3: the concrete round trip of `photo.png` with payload
`[1, 2, 3]` through record id 5 — the bytes read back from
`/media/5/photo.png` are exactly `[1, 2, 3]`. -/
theorem single_file_round_trip_witness :
    fsRead ((runWriteLoop (fun _ => false) 0
        [some (⟨5, "photo.png", some (mediaPath "/media" 5 "photo.png")⟩, [1, 2, 3])]
        []).1)
      (mediaPath "/media" 5 "photo.png") = some [1, 2, 3] :=
  ((single_file_round_trip (fun _ => "00112233445566778899aabbccddeeff") "/media"
      "photo.png" [1, 2, 3] ⟨false, [], [], 5, []⟩ rfl (by decide) (by decide)
      (by decide)).2.2) []

end TweetAPI
